import Mathlib

/-!
Verification of the Amazon SES webhook ingestion pipeline
(`anymail/webhooks/amazon_ses.py`): transport-envelope decoding and
validation, the SNS subscription-confirmation handshake, and the
normalization of SES application events into per-recipient tracking
events.

Python values decoded from JSON are modelled by the `Json` inductive
(`Json.null` also stands for Python `None`); JSON numbers are modelled
as integers (floating-point payloads are outside the model). Python
exceptions are modelled by `PyError`; functions that can raise return
`Except PyError`.
-/

namespace AmazonSES

/-- A JSON value as produced by Python `json.loads`.  `null` doubles as
Python `None`; objects are association lists with unique keys (Python
dicts). -/
inductive Json where
  | null
  | bool (b : Bool)
  | num (n : Int)
  | str (s : String)
  | arr (elems : List Json)
  | obj (fields : List (String × Json))

/-- Python `==` between a decoded value and a string (the only value
comparisons the webhook code performs): true iff the value is that
exact string. -/
def Json.eqStr : Json → String → Bool
  | .str s, t => s == t
  | _, _ => false

theorem Json.eqStr_iff (j : Json) (t : String) :
    Json.eqStr j t = true ↔ j = .str t := by
  cases j <;> simp [Json.eqStr]

/-- Python exceptions that the webhook code can raise or catch.
`validationFailure` is `AnymailWebhookValidationFailure` (the only
Anymail-specific error class this module uses). -/
inductive PyError where
  | validationFailure (message : String)
  | keyError (key : String)
  | typeError
  | attributeError
deriving DecidableEq

/-- Python `str()` / `repr()` escaping for single-quoted string repr. -/
def pyEscape (s : String) : String :=
  (s.replace "\\" "\\\\").replace "\x27" "\\\x27"

mutual

/-- Python `repr` of a decoded JSON value (as used by `%r` formatting). -/
def pyRepr : Json → String
  | .null => "None"
  | .bool true => "True"
  | .bool false => "False"
  | .num n => toString n
  | .str s => "\x27" ++ pyEscape s ++ "\x27"
  | .arr xs => "[" ++ pyReprList xs ++ "]"
  | .obj fs => "\x7b" ++ pyReprObj fs ++ "\x7d"

def pyReprList : List Json → String
  | [] => ""
  | [x] => pyRepr x
  | x :: xs => pyRepr x ++ ", " ++ pyReprList xs

def pyReprObj : List (String × Json) → String
  | [] => ""
  | [(k, v)] => "\x27" ++ pyEscape k ++ "\x27: " ++ pyRepr v
  | (k, v) :: kvs =>
      "\x27" ++ pyEscape k ++ "\x27: " ++ pyRepr v ++ ", " ++ pyReprObj kvs

end

/-- Python `str()` of a decoded JSON value (as used by `%s` and
`format` conversions). -/
def pyStr : Json → String
  | .str s => s
  | j => pyRepr j

/-- Python `dict.get(key, default)`: `AttributeError` when the receiver
is not a dict. -/
def pyGet (j : Json) (k : String) (default : Json) : Except PyError Json :=
  match j with
  | .obj fs => .ok ((fs.lookup k).getD default)
  | _ => .error .attributeError

/-- Python subscription `j[k]` with a string key: `KeyError` when a dict
lacks the key, `TypeError` on any non-dict receiver. -/
def pyIndex (j : Json) (k : String) : Except PyError Json :=
  match j with
  | .obj fs =>
    match fs.lookup k with
    | some v => .ok v
    | none => .error (.keyError k)
  | _ => .error .typeError

/-- Python `str.lower()`, modelled per character (ASCII case mapping;
the header names and subtype strings the code compares against are all
ASCII). -/
def pyLower (s : String) : String := ⟨s.data.map Char.toLower⟩

/-- Python iteration `for x in j`: lists yield elements, dicts their
keys, strings their characters; other values raise `TypeError`. -/
def pyIter : Json → Except PyError (List Json)
  | .arr xs => .ok xs
  | .obj fs => .ok (fs.map fun kv => .str kv.1)
  | .str s => .ok (s.toList.map fun c => .str (String.singleton c))
  | _ => .error .typeError

/-- An HTTP response as seen through the `requests` library; per
`requests`, `response.ok` is true for any status code below 400. -/
structure HttpResponse where
  status_code : Nat
  text : String

def HttpResponse.ok (r : HttpResponse) : Bool := r.status_code < 400

/-- The impure primitives the webhook code calls, supplied as oracles:
`jsonLoads` models `json.loads` on a string (`none` = `ValueError`);
`parseDatetime` models `django.utils.dateparse.parse_datetime` on a
string (`none` covers both a non-matching string and a caught
`ValueError`); `httpGet` models `requests.get`. -/
structure PyOracle where
  jsonLoads : String → Option Json
  parseDatetime : String → Option Json
  httpGet : Json → HttpResponse

/-- `json.loads` applied to an arbitrary decoded value: Python raises
`TypeError` (caught alongside `ValueError` wherever the webhook code
calls it) unless the argument is a string. -/
def pyJsonLoads (O : PyOracle) : Json → Option Json
  | .str s => O.jsonLoads s
  | _ => none

/-- The configuration surface of `AmazonSESBaseWebhookView`:
`auto_confirm_enabled` is the `auto_confirm_sns_subscriptions` setting
(default true); `basic_auth` is whether a `WEBHOOK_SECRET` shared
secret is configured (in which case the surrounding framework has
already verified the request credentials). -/
structure WebhookConfig where
  auto_confirm_enabled : Bool
  basic_auth : Bool

/-- One inbound HTTP request, as the webhook view sees it:
`rawBody` is `request.body` (bytes, rendered as a string);
`bodyDecoded` is the result of `request.body.decode(request.encoding
or "utf-8")`, with `none` modelling a `UnicodeDecodeError`; the two
header fields are `request.META` entries (absent = `none`). -/
structure SnsRequest where
  rawBody : String
  bodyDecoded : Option String
  headerType : Option String
  headerId : Option String

/-- The request-scoped parse cache (`request._sns_message`) plus a
count of how many times the underlying JSON parse was attempted. -/
structure SnsCache where
  snsMessage : Option Json := none
  parseAttempts : Nat := 0

/-- The message of the error raised for an undecodable body:
`"Malformed SNS message body %r" % request.body` (bytes repr). -/
def malformedMessage (req : SnsRequest) : String :=
  "Malformed SNS message body b\x27" ++ pyEscape req.rawBody ++ "\x27"

/-- `AmazonSESBaseWebhookView._parse_sns_message`: decode and JSON-parse
the request body, caching the result on the request
(`request._sns_message`); decode or parse failure raises
`AnymailWebhookValidationFailure`.  On failure nothing is cached, so the
attempt counter records each underlying parse attempt. -/
def parseSnsMessageSt (O : PyOracle) (req : SnsRequest) (st : SnsCache) :
    Except PyError Json × SnsCache :=
  match st.snsMessage with
  | some m => (.ok m, st)
  | none =>
    let st1 : SnsCache := { st with parseAttempts := st.parseAttempts + 1 }
    match req.bodyDecoded with
    | none => (.error (.validationFailure (malformedMessage req)), st1)
    | some body =>
      match O.jsonLoads body with
      | none => (.error (.validationFailure (malformedMessage req)), st1)
      | some m => (.ok m, { st1 with snsMessage := some m })

/-- `_parse_sns_message` on a fresh request (no cache yet). -/
def parseSnsMessage (O : PyOracle) (req : SnsRequest) : Except PyError Json :=
  (parseSnsMessageSt O req {}).1

/-- The header-declared message type:
`request.META.get("HTTP_X_AMZ_SNS_MESSAGE_TYPE", "<<missing>>")`. -/
def headerTypeOf (req : SnsRequest) : String :=
  req.headerType.getD "<<missing>>"

/-- The header-declared message id:
`request.META.get("HTTP_X_AMZ_SNS_MESSAGE_ID", "<<missing>>")`. -/
def headerIdOf (req : SnsRequest) : String :=
  req.headerId.getD "<<missing>>"

/-- The body-declared type `sns_message.get("Type", "<<missing>>")`
of an already-decoded envelope object. -/
def bodyTypeOf (fs : List (String × Json)) : Json :=
  (fs.lookup "Type").getD (.str "<<missing>>")

/-- The body-declared id `sns_message.get("MessageId", "<<missing>>")`
of an already-decoded envelope object. -/
def bodyIdOf (fs : List (String × Json)) : Json :=
  (fs.lookup "MessageId").getD (.str "<<missing>>")

/-- The three recognized SNS message types. -/
def recognizedTypes : List String :=
  ["Notification", "SubscriptionConfirmation", "UnsubscribeConfirmation"]

def typeMismatchMsg (headerType : String) (bodyType : Json) : String :=
  "SNS header \"x-amz-sns-message-type: " ++ headerType
    ++ "\" doesn\x27t match body \"Type\": \"" ++ pyStr bodyType ++ "\""

def unknownTypeMsg (headerType : String) : String :=
  "Unknown SNS message type \x27" ++ headerType ++ "\x27"

def idMismatchMsg (headerId : String) (bodyId : Json) : String :=
  "SNS header \"x-amz-sns-message-id: " ++ headerId
    ++ "\" doesn\x27t match body \"MessageId\": \"" ++ pyStr bodyId ++ "\""

/-- The check part of `AmazonSESBaseWebhookView.validate_request`, given
the already-parsed envelope: header type vs body type, recognized type,
header id vs body id, in that order, raising on the first failure.
(The SNS signature check is an acknowledged TODO in the source.) -/
def validateSnsMessage (req : SnsRequest) (sns : Json) : Except PyError Unit := do
  let headerType := headerTypeOf req
  let bodyType ← pyGet sns "Type" (.str "<<missing>>")
  if bodyType.eqStr headerType then
    if headerType ∈ recognizedTypes then
      let headerId := headerIdOf req
      let bodyId ← pyGet sns "MessageId" (.str "<<missing>>")
      if bodyId.eqStr headerId then
        pure ()
      else
        .error (.validationFailure (idMismatchMsg headerId bodyId))
    else
      .error (.validationFailure (unknownTypeMsg headerType))
  else
    .error (.validationFailure (typeMismatchMsg headerType bodyType))

/-- `AmazonSESBaseWebhookView.validate_request`: parse (via the cache),
then run the envelope checks. -/
def validate_request (O : PyOracle) (req : SnsRequest) (st : SnsCache) :
    Except PyError Unit × SnsCache :=
  match parseSnsMessageSt O req st with
  | (.error e, st1) => (.error e, st1)
  | (.ok sns, st1) => (validateSnsMessage req sns, st1)

def autoConfirmUnauthPre : String :=
  "Anymail received an unexpected SubscriptionConfirmation request for Amazon SNS topic \x27"

def autoConfirmUnauthMid : String :=
  "\x27. (Anymail can automatically confirm SNS subscriptions if you set a WEBHOOK_SECRET and use that in your SNS notification url. Or you can manually confirm this subscription in the SNS dashboard with token \x27"

def autoConfirmUnauthPost : String := "\x27.)"

def autoConfirmUnauthMsg (topicArn tok : Json) : String :=
  autoConfirmUnauthPre ++ pyStr topicArn ++ autoConfirmUnauthMid
    ++ pyStr tok ++ autoConfirmUnauthPost

def autoConfirmFailPre : String := "Anymail received a "

def autoConfirmFailMid1 : String :=
  " error trying to automatically confirm a subscription to Amazon SNS topic \x27"

def autoConfirmFailMid2 : String := "\x27. The response was \x27"

def autoConfirmFailPost : String := "\x27."

def autoConfirmFailMsg (status : Nat) (text : String) (topicArn : Json) : String :=
  autoConfirmFailPre ++ toString status ++ autoConfirmFailMid1
    ++ pyStr topicArn ++ autoConfirmFailMid2 ++ text ++ autoConfirmFailPost

/-- `AmazonSESBaseWebhookView.auto_confirm_sns_subscription`.  The
second component of the result is the trace of outbound
`requests.get` calls (by URL), in order. -/
def auto_confirm_sns_subscription (cfg : WebhookConfig) (O : PyOracle)
    (sns : Json) : Except PyError Unit × List Json :=
  if !cfg.auto_confirm_enabled then (.ok (), [])
  else if !cfg.basic_auth then
    match pyGet sns "TopicArn" .null, pyGet sns "Token" .null with
    | .ok topicArn, .ok tok =>
        (.error (.validationFailure (autoConfirmUnauthMsg topicArn tok)), [])
    | .error e, _ => (.error e, [])
    | _, .error e => (.error e, [])
  else
    match pyIndex sns "SubscribeURL" with
    | .error e => (.error e, [])
    | .ok url =>
      let resp := O.httpGet url
      if resp.ok then (.ok (), [url])
      else
        match pyGet sns "TopicArn" .null with
        | .ok topicArn =>
            (.error (.validationFailure
              (autoConfirmFailMsg resp.status_code resp.text topicArn)), [url])
        | .error e => (.error e, [url])

/-- Modelled from the spec: the closed event taxonomy of the Normalized
Event (`EventType` constants in `anymail/signals.py`, not under
`src/`): Queued/Sent, Delivered, Bounced, Complained, Rejected, Opened,
Clicked, RenderingFailed, Unknown. -/
inductive EventType where
  | sent
  | delivered
  | bounced
  | complained
  | rejected
  | opened
  | clicked
  | failed
  | unknown
deriving DecidableEq

/-- Modelled from the spec: the closed set of rejection reasons
(`RejectReason` constants in `anymail/signals.py`, not under `src/`):
Bounced, Spam, Blocked. -/
inductive RejectReason where
  | bounced
  | spam
  | blocked
deriving DecidableEq

/-- Modelled from the spec: the Normalized Event
(`AnymailTrackingEvent` in `anymail/signals.py`, not under `src/`).
Fields not supplied by the webhook default to `None` (here
`Json.null`), `tags` to the empty list and `metadata` to the empty
mapping. -/
structure AnymailTrackingEvent where
  event_type : EventType := .unknown
  event_id : Json := .null
  message_id : Json := .null
  recipient : Json := .null
  reject_reason : Option RejectReason := none
  description : Json := .null
  mta_response : Json := .null
  user_agent : Json := .null
  click_url : Json := .null
  tags : List Json := []
  metadata : Json := .obj []
  timestamp : Option Json := none
  esp_event : Json := .null

/-- The `common_props` dict of `esp_to_anymail_events`: the event
fields shared by every fan-out event (everything except the
per-recipient `recipient` and, for Bounce, `mta_response`).  A key the
code never put into the dict is represented by the corresponding
`AnymailTrackingEvent` constructor default. -/
structure CommonProps where
  event_type : EventType := .unknown
  event_id : Json := .null
  message_id : Json := .null
  reject_reason : Option RejectReason := none
  description : Json := .null
  mta_response : Json := .null
  user_agent : Json := .null
  click_url : Json := .null
  tags : List Json := []
  metadata : Json := .obj []
  timestamp : Option Json := none
  esp_event : Json := .null

/-- One entry of the `per_recipient_props` list: always a `recipient`
key, plus (only in the Bounce branch) an `mta_response` key; `none`
models the key being absent from the dict. -/
structure RecipientProps where
  recipient : Json
  mta_response : Option Json := none

/-- Modelled from the spec: `combine` (`anymail/utils.py`, not under
`src/`) merges the common-property dict with one recipient\x27s
property dict (recipient keys win), and the merged dict is passed as
keyword arguments to the `AnymailTrackingEvent` constructor. -/
def combine (c : CommonProps) (r : RecipientProps) : AnymailTrackingEvent :=
  { event_type := c.event_type
    event_id := c.event_id
    message_id := c.message_id
    recipient := r.recipient
    reject_reason := c.reject_reason
    description := c.description
    mta_response := r.mta_response.getD c.mta_response
    user_agent := c.user_agent
    click_url := c.click_url
    tags := c.tags
    metadata := c.metadata
    timestamp := c.timestamp
    esp_event := c.esp_event }

/-- Modelled from the spec: `getfirst` (`anymail/utils.py`, not under
`src/`): first-match lookup across a list of field-name aliases,
returning the default when none is present (a `KeyError` falls through
to the next alias; subscripting a non-dict raises `TypeError`). -/
def getfirst (dct : Json) : List String → Json → Except PyError Json
  | [], default => .ok default
  | k :: ks, default =>
    match pyIndex dct k with
    | .ok v => .ok v
    | .error (.keyError _) => getfirst dct ks default
    | .error e => .error e

/-- A Python list comprehension whose element expression can raise. -/
def mapExcept {α : Type} (f : Json → Except PyError α) :
    List Json → Except PyError (List α)
  | [] => .ok []
  | x :: xs => do
    let r ← f x
    let rs ← mapExcept f xs
    pure (r :: rs)

/-- Lines 138-141: `parse_datetime(sns_message["Timestamp"])` with
`KeyError` and `ValueError` caught (yielding `None`); a non-string
value reaches `parse_datetime` and raises an uncaught `TypeError`, and
subscripting a non-dict envelope likewise raises `TypeError`. -/
def espTimestamp (O : PyOracle) (sns : Json) : Except PyError (Option Json) :=
  match sns with
  | .obj fs =>
    match fs.lookup "Timestamp" with
    | none => .ok none
    | some (.str s) => .ok (O.parseDatetime s)
    | some _ => .error .typeError
  | _ => .error .typeError

/-- Lines 148-158: the loop over `mail_object["headers"]` recovering
`tags` and `metadata` from the custom `x-tag` / `x-metadata` headers
(header-name match is case-insensitive; a failed metadata JSON decode
or a missing `value` key is swallowed). -/
def scanHeaders (O : PyOracle) :
    List Json → List Json → Json → Except PyError (List Json × Json)
  | [], tags, metadata => .ok (tags, metadata)
  | header :: rest, tags, metadata => do
    let nameVal ← pyIndex header "name"
    match nameVal with
    | .str nm =>
      let name := pyLower nm
      if name = "x-tag" then do
        let v ← pyIndex header "value"
        scanHeaders O rest (tags ++ [v]) metadata
      else if name = "x-metadata" then
        match pyIndex header "value" with
        | .error _ => scanHeaders O rest tags metadata
        | .ok v =>
          match pyJsonLoads O v with
          | none => scanHeaders O rest tags metadata
          | some md => scanHeaders O rest tags md
      else scanHeaders O rest tags metadata
    | _ => .error .attributeError

/-- Lines 137-171 of `esp_to_anymail_events`: the common-property dict
and the default per-recipient list (one entry per address in the mail
object\x27s `destination` list), before the subtype dispatch. -/
def espCommon (O : PyOracle) (sesEvent snsMessage : Json) :
    Except PyError (CommonProps × List RecipientProps) := do
  let event_id ← pyGet snsMessage "MessageId" .null
  let timestamp ← espTimestamp O snsMessage
  let mail_object ← pyGet sesEvent "mail" (.obj [])
  let message_id ← pyGet mail_object "messageId" .null
  let all_recipients ← pyGet mail_object "destination" (.arr [])
  let headersVal ← pyGet mail_object "headers" (.arr [])
  let headerList ← pyIter headersVal
  let (tags, metadata) ← scanHeaders O headerList [] (.obj [])
  let recips ← pyIter all_recipients
  pure ({ event_id := event_id
          message_id := message_id
          metadata := metadata
          tags := tags
          timestamp := timestamp
          esp_event := sesEvent },
        recips.map fun a => { recipient := a })

/-- Lines 173-174: extract the SES event subtype via
`getfirst(ses_event, ["eventType", "notificationType"],
"<<type missing>>")`; the immediately following `.lower()` raises
`AttributeError` on a non-string value. -/
def espSubtype (sesEvent : Json) : Except PyError String := do
  let t ← getfirst sesEvent ["eventType", "notificationType"] (.str "<<type missing>>")
  match t with
  | .str s => pure s
  | _ => .error .attributeError

/-- `"Unknown SES eventType \x27%s\x27" % ses_event_type`. -/
def unknownEventMsg (s : String) : String :=
  "Unknown SES eventType \x27" ++ s ++ "\x27"

/-- One replacement field of `"...".format(**event_object)`: requires a
dict argument (`TypeError` otherwise), raises `KeyError` when the field
name is absent, and renders the value with `str()`. -/
def pyFormatKey (j : Json) (k : String) : Except PyError String :=
  match j with
  | .obj fs =>
    match fs.lookup k with
    | some v => .ok (pyStr v)
    | none => .error (.keyError k)
  | _ => .error .typeError

/-- Lines 174-240: `event_object = ses_event.get(ses_event_type.lower(),
\x7b\x7d)` followed by the per-subtype if/elif chain, updating the
common-property dict and overriding the per-recipient list. -/
def espDispatch (sesEvent : Json) (s : String) (common : CommonProps)
    (perDefault : List RecipientProps) :
    Except PyError (CommonProps × List RecipientProps) := do
  let event_object ← pyGet sesEvent (pyLower s) (.obj [])
  if s = "Bounce" then do
    let bt ← pyFormatKey event_object "bounceType"
    let bst ← pyFormatKey event_object "bounceSubType"
    let c := { common with
               event_type := .bounced
               description := .str (bt ++ ": " ++ bst)
               reject_reason := some .bounced }
    let brVal ← pyIndex event_object "bouncedRecipients"
    let brs ← pyIter brVal
    let prs ← mapExcept (fun r => do
        let addr ← pyIndex r "emailAddress"
        let diag ← pyGet r "diagnosticCode" .null
        pure ({ recipient := addr, mta_response := some diag } : RecipientProps)) brs
    pure (c, prs)
  else if s = "Complaint" then do
    let fb ← pyGet event_object "complaintFeedbackType" .null
    let ua ← pyGet event_object "userAgent" .null
    let c := { common with
               event_type := .complained
               description := fb
               reject_reason := some .spam
               user_agent := ua }
    let crVal ← pyIndex event_object "complainedRecipients"
    let crs ← pyIter crVal
    let prs ← mapExcept (fun r => do
        let addr ← pyIndex r "emailAddress"
        pure ({ recipient := addr } : RecipientProps)) crs
    pure (c, prs)
  else if s = "Delivery" then do
    let mta ← pyGet event_object "smtpResponse" .null
    let c := { common with event_type := .delivered, mta_response := mta }
    let rVal ← pyIndex event_object "recipients"
    let rs ← pyIter rVal
    pure (c, rs.map fun r => { recipient := r })
  else if s = "Send" then
    pure ({ common with event_type := .sent }, perDefault)
  else if s = "Reject" then do
    let reason ← pyIndex event_object "reason"
    pure ({ common with
            event_type := .rejected
            description := reason
            reject_reason := some .blocked }, perDefault)
  else if s = "Open" then do
    let ua ← pyGet event_object "userAgent" .null
    pure ({ common with event_type := .opened, user_agent := ua }, perDefault)
  else if s = "Click" then do
    let ua ← pyGet event_object "userAgent" .null
    let link ← pyGet event_object "link" .null
    pure ({ common with
            event_type := .clicked
            user_agent := ua
            click_url := link }, perDefault)
  else if s = "Rendering Failure" then do
    let failureObj ← pyIndex sesEvent "failure"
    let msg ← pyIndex failureObj "errorMessage"
    pure ({ common with event_type := .failed, description := msg }, perDefault)
  else
    pure ({ common with
            event_type := .unknown
            description := .str (unknownEventMsg s) },
          perDefault)

/-- `AmazonSESTrackingWebhookView.esp_to_anymail_events`: common
properties, subtype extraction, subtype dispatch, then one
`AnymailTrackingEvent` per per-recipient entry. -/
def esp_to_anymail_events (O : PyOracle) (sesEvent snsMessage : Json) :
    Except PyError (List AnymailTrackingEvent) := do
  let (common, perDefault) ← espCommon O sesEvent snsMessage
  let s ← espSubtype sesEvent
  let (c, prs) ← espDispatch sesEvent s common perDefault
  pure (prs.map (combine c))

/-- The SNS acknowledgment text sent right after a subscription is
confirmed; a Notification whose `Message` is exactly this string is
silently ignored. -/
def ackString : String :=
  "Successfully validated SNS topic for Amazon SES event publishing."

/-- `"Unparsable SNS Message %r" % message_string`. -/
def unparsableMsg (v : Json) : String :=
  "Unparsable SNS Message " ++ pyRepr v

/-- `AmazonSESBaseWebhookView.parse_events`, given the already-parsed
envelope: branch on the body-declared `Type`, normalizing Notifications,
auto-confirming SubscriptionConfirmations, and ignoring everything
else.  The second component is the outbound `requests.get` trace. -/
def parseEventsOn (cfg : WebhookConfig) (O : PyOracle) (sns : Json) :
    Except PyError (List AnymailTrackingEvent) × List Json :=
  match pyGet sns "Type" .null with
  | .error e => (.error e, [])
  | .ok snsType =>
    if snsType.eqStr "Notification" then
      match pyGet sns "Message" .null with
      | .error e => (.error e, [])
      | .ok msgVal =>
        match pyJsonLoads O msgVal with
        | none =>
          if msgVal.eqStr ackString then (.ok [], [])
          else (.error (.validationFailure (unparsableMsg msgVal)), [])
        | some sesEvent => (esp_to_anymail_events O sesEvent sns, [])
    else if snsType.eqStr "SubscriptionConfirmation" then
      match auto_confirm_sns_subscription cfg O sns with
      | (.ok (), tr) => (.ok [], tr)
      | (.error e, tr) => (.error e, tr)
    else (.ok [], [])

/-- `parse_events` on a request: re-read the envelope through the
request-scoped cache, then branch. -/
def parse_events (cfg : WebhookConfig) (O : PyOracle) (req : SnsRequest)
    (st : SnsCache) :
    Except PyError (List AnymailTrackingEvent) × List Json × SnsCache :=
  match parseSnsMessageSt O req st with
  | (.error e, st1) => (.error e, [], st1)
  | (.ok sns, st1) =>
    match parseEventsOn cfg O sns with
    | (r, tr) => (r, tr, st1)

/-- Modelled from the spec: the control flow of the webhook view
(`AnymailBaseWebhookView` in `anymail/webhooks/base.py`, not under
`src/`): validate the request, then parse events; a validation failure
aborts the request with zero events. -/
def processRequest (cfg : WebhookConfig) (O : PyOracle) (req : SnsRequest) :
    Except PyError (List AnymailTrackingEvent) × List Json × SnsCache :=
  match validate_request O req {} with
  | (.error e, st) => (.error e, [], st)
  | (.ok (), st) => parse_events cfg O req st

/-! ## Generic helpers for the proofs -/

theorem exceptBind_ok {α β : Type} (a : α) (f : α → Except PyError β) :
    (Except.ok a >>= f) = f a := rfl

theorem exceptBind_error {α β : Type} (e : PyError) (f : α → Except PyError β) :
    ((Except.error e : Except PyError α) >>= f) = .error e := rfl

/-- Invert a successful `Except` bind: the first step succeeded and the
continuation succeeded on its result. -/
theorem exceptBind_eq_ok {α β : Type} {x : Except PyError α}
    {f : α → Except PyError β} {b : β} (h : (x >>= f) = .ok b) :
    ∃ a, x = .ok a ∧ f a = .ok b := by
  cases x with
  | error e => rw [exceptBind_error] at h; exact absurd h (by simp)
  | ok a => exact ⟨a, rfl, h⟩

/-- `t` occurs verbatim inside `s`. -/
def containsStr (s t : String) : Prop := List.IsInfix t.data s.data

theorem containsStr_append (a t b : String) : containsStr (a ++ t ++ b) t := by
  unfold containsStr
  refine ⟨a.data, b.data, ?_⟩
  simp [String.data_append]

/-- A concrete oracle for witnesses: no string parses as JSON or as a
datetime, and every outbound GET answers 200. -/
def nullOracle : PyOracle :=
  { jsonLoads := fun _ => none
    parseDatetime := fun _ => none
    httpGet := fun _ => { status_code := 200, text := "" } }

/-! ## C10: non-Notification, non-SubscriptionConfirmation envelopes -/

/-- C10: for every validated envelope whose body-declared type is
UnsubscribeConfirmation — or anything else other than Notification and
SubscriptionConfirmation — `parse_events` returns the empty event list,
raises no error, and performs no outbound call. -/
theorem parseEvents_ignores_other_types (cfg : WebhookConfig) (O : PyOracle)
    (fs : List (String × Json)) (t : Json)
    (hT : fs.lookup "Type" = some t)
    (h1 : t ≠ .str "Notification")
    (h2 : t ≠ .str "SubscriptionConfirmation") :
    parseEventsOn cfg O (.obj fs) = (.ok [], []) := by
  have e1 : t.eqStr "Notification" = false := by
    rw [← Bool.not_eq_true, Json.eqStr_iff]; exact h1
  have e2 : t.eqStr "SubscriptionConfirmation" = false := by
    rw [← Bool.not_eq_true, Json.eqStr_iff]; exact h2
  simp [parseEventsOn, pyGet, hT, e1, e2]

/-- Witness for C10 at a concrete UnsubscribeConfirmation envelope. -/
theorem parseEvents_ignores_other_types_witness :
    parseEventsOn { auto_confirm_enabled := true, basic_auth := true } nullOracle
      (.obj [("Type", .str "UnsubscribeConfirmation")]) = (.ok [], []) :=
  parseEvents_ignores_other_types _ _ _ _ rfl (by simp) (by simp)

/-! ## C6: Notifications whose embedded Message does not decode -/

/-- C6: for a Notification envelope whose `Message` string fails to
decode as JSON, processing is benign (no error, zero events, no
outbound call) if and only if the Message is exactly the topic-validation
acknowledgment string; any other undecodable Message raises an
`AnymailWebhookValidationFailure`. -/
theorem notification_unparsable_message (cfg : WebhookConfig) (O : PyOracle)
    (fs : List (String × Json)) (m : String)
    (hT : fs.lookup "Type" = some (.str "Notification"))
    (hM : fs.lookup "Message" = some (.str m))
    (hload : O.jsonLoads m = none) :
    (parseEventsOn cfg O (.obj fs) = (.ok [], []) ↔ m = ackString) ∧
    (m ≠ ackString →
      parseEventsOn cfg O (.obj fs) =
        (.error (.validationFailure (unparsableMsg (.str m))), [])) := by
  by_cases hack : m = ackString
  · subst hack
    constructor
    · refine ⟨fun _ => rfl, fun _ => ?_⟩
      simp [parseEventsOn, pyGet, hT, hM, pyJsonLoads, hload, Json.eqStr]
    · intro hne; exact absurd rfl hne
  · have hres : parseEventsOn cfg O (.obj fs) =
        (.error (.validationFailure (unparsableMsg (.str m))), []) := by
      have e1 : Json.eqStr (.str m) ackString = false := by
        rw [← Bool.not_eq_true, Json.eqStr_iff]
        intro h; exact hack (Json.str.inj h)
      simp [parseEventsOn, pyGet, hT, hM, pyJsonLoads, hload, e1, Json.eqStr, hack]
    refine ⟨?_, fun _ => hres⟩
    rw [hres]
    constructor
    · intro h; exact absurd h (by simp)
    · intro h; exact absurd h hack

/-- Witness for C6: a Notification carrying the acknowledgment string is
ignored, one carrying other non-JSON text fails validation. -/
theorem notification_unparsable_message_witness :
    (parseEventsOn { auto_confirm_enabled := true, basic_auth := false } nullOracle
        (.obj [("Type", .str "Notification"), ("Message", .str ackString)])
      = (.ok [], []) ↔ ackString = ackString) ∧
    (ackString ≠ ackString →
      parseEventsOn { auto_confirm_enabled := true, basic_auth := false } nullOracle
          (.obj [("Type", .str "Notification"), ("Message", .str ackString)])
        = (.error (.validationFailure (unparsableMsg (.str ackString))), [])) :=
  notification_unparsable_message _ _ _ _ rfl rfl rfl

/-! ## C5: envelope decoder failures -/

/-- C5 (amended): an undecodable or non-JSON body makes
`_parse_sns_message` raise `AnymailWebhookValidationFailure` — the same
error kind as every other validation failure, not a distinct one — and
a body that is valid JSON but not an object decodes successfully (the
decoder returns whatever value was parsed; failure, if any, happens
later when the value is used). -/
theorem decoder_malformed (O : PyOracle) (req : SnsRequest) :
    (req.bodyDecoded = none →
      parseSnsMessage O req = .error (.validationFailure (malformedMessage req))) ∧
    (∀ b, req.bodyDecoded = some b → O.jsonLoads b = none →
      parseSnsMessage O req = .error (.validationFailure (malformedMessage req))) ∧
    (∀ b j, req.bodyDecoded = some b → O.jsonLoads b = some j →
      parseSnsMessage O req = .ok j) := by
  refine ⟨fun h => ?_, fun b hb hl => ?_, fun b j hb hl => ?_⟩
  · simp [parseSnsMessage, parseSnsMessageSt, h]
  · simp [parseSnsMessage, parseSnsMessageSt, hb, hl]
  · simp [parseSnsMessage, parseSnsMessageSt, hb, hl]

/-- Witness for C5 (amended) at concrete bodies. -/
theorem decoder_malformed_witness :
    parseSnsMessage nullOracle
        { rawBody := "x", bodyDecoded := some "x",
          headerType := none, headerId := none }
      = .error (.validationFailure (malformedMessage
          { rawBody := "x", bodyDecoded := some "x",
            headerType := none, headerId := none })) :=
  (decoder_malformed nullOracle _).2.1 "x" rfl rfl

/-- Counterexample for C5 as stated: a body that is syntactically valid
JSON but not an object (here `"[]"`) does NOT make the decoder fail —
it returns the parsed array — and a non-JSON body fails with the very
same `validationFailure` error kind used for validation failures, not a
kind distinct from it. -/
theorem decoder_nonobject_cex :
    parseSnsMessage
        { jsonLoads := fun s => if s = "[]" then some (.arr []) else none
          parseDatetime := fun _ => none
          httpGet := fun _ => { status_code := 200, text := "" } }
        { rawBody := "[]", bodyDecoded := some "[]",
          headerType := none, headerId := none }
      = .ok (.arr []) ∧
    parseSnsMessage
        { jsonLoads := fun s => if s = "[]" then some (.arr []) else none
          parseDatetime := fun _ => none
          httpGet := fun _ => { status_code := 200, text := "" } }
        { rawBody := "oops", bodyDecoded := some "oops",
          headerType := none, headerId := none }
      = .error (.validationFailure (malformedMessage
          { rawBody := "oops", bodyDecoded := some "oops",
            headerType := none, headerId := none })) :=
  ⟨rfl, rfl⟩

/-! ## C9: request-scoped memoization of the envelope parse -/

/-- Inversion for a successful fresh parse: the cache now holds the
parsed value and exactly one parse was attempted. -/
theorem parseSnsMessageSt_ok (O : PyOracle) (req : SnsRequest) (sns : Json)
    (h : (parseSnsMessageSt O req {}).1 = .ok sns) :
    parseSnsMessageSt O req {} = (.ok sns, { snsMessage := some sns, parseAttempts := 1 }) := by
  cases hb : req.bodyDecoded with
  | none => simp [parseSnsMessageSt, hb] at h
  | some b =>
    cases hl : O.jsonLoads b with
    | none => simp [parseSnsMessageSt, hb, hl] at h
    | some j =>
      have : j = sns := by simpa [parseSnsMessageSt, hb, hl] using h
      subst this
      simp [parseSnsMessageSt, hb, hl]

/-- C9: decoding the same raw body twice within one request yields the
identical envelope with the JSON parse attempted only once (the second
read is served from the request-scoped cache), and the full
validate-then-normalize pipeline performs exactly one parse attempt and
no duplicate outbound calls from decoding. -/
theorem decode_memoized (O : PyOracle) (req : SnsRequest) :
    (∀ sns, (parseSnsMessageSt O req {}).1 = .ok sns →
      parseSnsMessageSt O req (parseSnsMessageSt O req {}).2
          = (.ok sns, (parseSnsMessageSt O req {}).2) ∧
        ((parseSnsMessageSt O req {}).2).parseAttempts = 1) ∧
    (∀ cfg, ((processRequest cfg O req).2.2).parseAttempts = 1) := by
  constructor
  · intro sns h
    rw [parseSnsMessageSt_ok O req sns h]
    exact ⟨rfl, rfl⟩
  · intro cfg
    unfold processRequest validate_request parse_events
    cases hb : req.bodyDecoded with
    | none => simp [parseSnsMessageSt, hb]
    | some b =>
      cases hl : O.jsonLoads b with
      | none => simp [parseSnsMessageSt, hb, hl]
      | some j =>
        cases hv : validateSnsMessage req j with
        | error e => simp [parseSnsMessageSt, hb, hl, hv]
        | ok u =>
          cases u
          simp [parseSnsMessageSt, hb, hl, hv]

/-- A concrete oracle whose `json.loads` always yields the empty
object (for the memoization witness). -/
def objOracle : PyOracle :=
  { jsonLoads := fun _ => some (.obj [])
    parseDatetime := fun _ => none
    httpGet := fun _ => { status_code := 200, text := "" } }

/-- A concrete request carrying an empty-object body. -/
def objRequest : SnsRequest :=
  { rawBody := "\x7b\x7d", bodyDecoded := some "\x7b\x7d",
    headerType := none, headerId := none }

/-- Witness for C9 at a concrete request whose body parses. -/
theorem decode_memoized_witness :
    (parseSnsMessageSt objOracle objRequest (parseSnsMessageSt objOracle objRequest {}).2
        = (.ok (.obj []), (parseSnsMessageSt objOracle objRequest {}).2))
      ∧ ((parseSnsMessageSt objOracle objRequest {}).2).parseAttempts = 1 :=
  (decode_memoized objOracle objRequest).1 (.obj []) rfl

/-! ## C2: envelope validation rules -/

/-- Normal form of the validator on an already-decoded envelope
object. -/
theorem validateSnsMessage_obj (req : SnsRequest) (fs : List (String × Json)) :
    validateSnsMessage req (.obj fs) =
      (if (bodyTypeOf fs).eqStr (headerTypeOf req) then
        if headerTypeOf req ∈ recognizedTypes then
          if (bodyIdOf fs).eqStr (headerIdOf req) then .ok ()
          else .error (.validationFailure (idMismatchMsg (headerIdOf req) (bodyIdOf fs)))
        else .error (.validationFailure (unknownTypeMsg (headerTypeOf req)))
      else .error (.validationFailure (typeMismatchMsg (headerTypeOf req) (bodyTypeOf fs)))) := by
  simp [validateSnsMessage, pyGet, bodyTypeOf, bodyIdOf, headerTypeOf, headerIdOf,
    exceptBind_ok]
  rfl

/-- C2: validation of a decoded envelope raises iff the header-declared
type differs from the body-declared type, or the declared type is not
one of the three recognized SNS types, or the header-declared id
differs from the body-declared id; every such error is an
`AnymailWebhookValidationFailure`; the rules are checked in that order
with the first failure short-circuiting the rest (witnessed by which
error message is raised); and a request failing validation aborts the
pipeline with zero events and no outbound call.  (The check itself is a
pure function of the request headers and decoded body by
construction.) -/
theorem validator_rules (req : SnsRequest) (fs : List (String × Json)) :
    ((∃ e, validateSnsMessage req (.obj fs) = .error e) ↔
      (bodyTypeOf fs ≠ .str (headerTypeOf req) ∨ headerTypeOf req ∉ recognizedTypes
        ∨ bodyIdOf fs ≠ .str (headerIdOf req))) ∧
    (∀ e, validateSnsMessage req (.obj fs) = .error e →
      ∃ msg, e = .validationFailure msg) ∧
    (bodyTypeOf fs ≠ .str (headerTypeOf req) →
      validateSnsMessage req (.obj fs)
        = .error (.validationFailure (typeMismatchMsg (headerTypeOf req) (bodyTypeOf fs)))) ∧
    (bodyTypeOf fs = .str (headerTypeOf req) → headerTypeOf req ∉ recognizedTypes →
      validateSnsMessage req (.obj fs)
        = .error (.validationFailure (unknownTypeMsg (headerTypeOf req)))) ∧
    (bodyTypeOf fs = .str (headerTypeOf req) → headerTypeOf req ∈ recognizedTypes →
      bodyIdOf fs ≠ .str (headerIdOf req) →
      validateSnsMessage req (.obj fs)
        = .error (.validationFailure (idMismatchMsg (headerIdOf req) (bodyIdOf fs)))) ∧
    (∀ cfg O e, parseSnsMessage O req = .ok (.obj fs) →
      validateSnsMessage req (.obj fs) = .error e →
      processRequest cfg O req
        = (.error e, [], { snsMessage := some (.obj fs), parseAttempts := 1 })) := by
  have c3 : bodyTypeOf fs ≠ .str (headerTypeOf req) →
      validateSnsMessage req (.obj fs)
        = .error (.validationFailure (typeMismatchMsg (headerTypeOf req) (bodyTypeOf fs))) := by
    intro h1
    have e1 : (bodyTypeOf fs).eqStr (headerTypeOf req) = false := by
      rw [← Bool.not_eq_true, Json.eqStr_iff]; exact h1
    rw [validateSnsMessage_obj]; simp [e1]
  have c4 : bodyTypeOf fs = .str (headerTypeOf req) → headerTypeOf req ∉ recognizedTypes →
      validateSnsMessage req (.obj fs)
        = .error (.validationFailure (unknownTypeMsg (headerTypeOf req))) := by
    intro h1 h2
    have e1 : (bodyTypeOf fs).eqStr (headerTypeOf req) = true := by
      rw [Json.eqStr_iff]; exact h1
    rw [validateSnsMessage_obj]; simp [e1, h2]
  have c5 : bodyTypeOf fs = .str (headerTypeOf req) → headerTypeOf req ∈ recognizedTypes →
      bodyIdOf fs ≠ .str (headerIdOf req) →
      validateSnsMessage req (.obj fs)
        = .error (.validationFailure (idMismatchMsg (headerIdOf req) (bodyIdOf fs))) := by
    intro h1 h2 h3
    have e1 : (bodyTypeOf fs).eqStr (headerTypeOf req) = true := by
      rw [Json.eqStr_iff]; exact h1
    have e3 : (bodyIdOf fs).eqStr (headerIdOf req) = false := by
      rw [← Bool.not_eq_true, Json.eqStr_iff]; exact h3
    rw [validateSnsMessage_obj]; simp [e1, h2, e3]
  have hok : bodyTypeOf fs = .str (headerTypeOf req) → headerTypeOf req ∈ recognizedTypes →
      bodyIdOf fs = .str (headerIdOf req) → validateSnsMessage req (.obj fs) = .ok () := by
    intro h1 h2 h3
    have e1 : (bodyTypeOf fs).eqStr (headerTypeOf req) = true := by
      rw [Json.eqStr_iff]; exact h1
    have e3 : (bodyIdOf fs).eqStr (headerIdOf req) = true := by
      rw [Json.eqStr_iff]; exact h3
    rw [validateSnsMessage_obj]; simp [e1, h2, e3]
  refine ⟨?_, ?_, c3, c4, c5, ?_⟩
  · constructor
    · rintro ⟨e, he⟩
      by_cases h1 : bodyTypeOf fs = .str (headerTypeOf req)
      · by_cases h2 : headerTypeOf req ∈ recognizedTypes
        · by_cases h3 : bodyIdOf fs = .str (headerIdOf req)
          · rw [hok h1 h2 h3] at he; exact absurd he (by simp)
          · exact Or.inr (Or.inr h3)
        · exact Or.inr (Or.inl h2)
      · exact Or.inl h1
    · rintro (h1 | h2 | h3)
      · exact ⟨_, c3 h1⟩
      · by_cases h1 : bodyTypeOf fs = .str (headerTypeOf req)
        · exact ⟨_, c4 h1 h2⟩
        · exact ⟨_, c3 h1⟩
      · by_cases h1 : bodyTypeOf fs = .str (headerTypeOf req)
        · by_cases h2 : headerTypeOf req ∈ recognizedTypes
          · exact ⟨_, c5 h1 h2 h3⟩
          · exact ⟨_, c4 h1 h2⟩
        · exact ⟨_, c3 h1⟩
  · intro e he
    rw [validateSnsMessage_obj] at he
    split_ifs at he with h1 h2 h3
    · exact ⟨_, (Except.error.inj he).symm⟩
    · exact ⟨_, (Except.error.inj he).symm⟩
    · exact ⟨_, (Except.error.inj he).symm⟩
  · intro cfg O e hp hv
    have hfull := parseSnsMessageSt_ok O req (.obj fs) hp
    unfold processRequest validate_request
    rw [hfull]
    simp [hv]

/-- Witness for C2 at a concrete mismatching request (header says
Notification, body says SubscriptionConfirmation). -/
theorem validator_rules_witness :
    validateSnsMessage
        { rawBody := "", bodyDecoded := some "",
          headerType := some "Notification", headerId := some "m1" }
        (.obj [("Type", .str "SubscriptionConfirmation")])
      = .error (.validationFailure
          (typeMismatchMsg
            (headerTypeOf
              { rawBody := "", bodyDecoded := some "",
                headerType := some "Notification", headerId := some "m1" })
            (bodyTypeOf [("Type", .str "SubscriptionConfirmation")]))) :=
  (validator_rules
      { rawBody := "", bodyDecoded := some "",
        headerType := some "Notification", headerId := some "m1" }
      [("Type", .str "SubscriptionConfirmation")]).2.2.1 (by simp [bodyTypeOf, headerTypeOf])

/-! ## C1: the subscription-confirmation handshake -/

theorem containsStr_five (s1 p s2 q s3 : String) :
    containsStr (s1 ++ p ++ s2 ++ q ++ s3) p ∧
      containsStr (s1 ++ p ++ s2 ++ q ++ s3) q := by
  constructor
  · refine ⟨s1.data, (s2 ++ q ++ s3).data, ?_⟩
    simp [String.data_append, List.append_assoc]
  · refine ⟨(s1 ++ p ++ s2).data, s3.data, ?_⟩
    simp [String.data_append, List.append_assoc]

theorem containsStr_seven (a1 x a2 y a3 z a4 : String) :
    containsStr (a1 ++ x ++ a2 ++ y ++ a3 ++ z ++ a4) x ∧
      containsStr (a1 ++ x ++ a2 ++ y ++ a3 ++ z ++ a4) z := by
  constructor
  · refine ⟨a1.data, (a2 ++ y ++ a3 ++ z ++ a4).data, ?_⟩
    simp [String.data_append, List.append_assoc]
  · refine ⟨(a1 ++ x ++ a2 ++ y ++ a3).data, a4.data, ?_⟩
    simp [String.data_append, List.append_assoc]

/-- C1: for a SubscriptionConfirmation envelope — (a) if automatic
confirmation is disabled the handler is a no-op (no error, no outbound
call); (b) if the caller has not proven possession of the shared secret
it fails with an `AnymailWebhookValidationFailure` whose message carries
the topic id and the manual-confirmation token, with no outbound call,
for every oracle (so even when auto-confirm is enabled and the
confirmation URL is reachable); (c) if authenticated it issues exactly
one outbound GET to the `SubscribeURL` embedded in the envelope — with
no retry — and raises an `AnymailWebhookValidationFailure` carrying the
response status code and body exactly when the response is not
successful. -/
theorem handshake_auth (cfg : WebhookConfig) (O : PyOracle)
    (fs : List (String × Json)) (topic tok : String) (url : Json)
    (hTopic : fs.lookup "TopicArn" = some (.str topic))
    (hTok : fs.lookup "Token" = some (.str tok))
    (hUrl : fs.lookup "SubscribeURL" = some url) :
    (cfg.auto_confirm_enabled = false →
      auto_confirm_sns_subscription cfg O (.obj fs) = (.ok (), [])) ∧
    (cfg.auto_confirm_enabled = true → cfg.basic_auth = false →
      ∃ msg, auto_confirm_sns_subscription cfg O (.obj fs)
          = (.error (.validationFailure msg), [])
        ∧ containsStr msg topic ∧ containsStr msg tok) ∧
    (cfg.auto_confirm_enabled = true → cfg.basic_auth = true →
      (auto_confirm_sns_subscription cfg O (.obj fs)).2 = [url] ∧
      ((O.httpGet url).ok = true →
        auto_confirm_sns_subscription cfg O (.obj fs) = (.ok (), [url])) ∧
      ((O.httpGet url).ok = false →
        ∃ msg, auto_confirm_sns_subscription cfg O (.obj fs)
            = (.error (.validationFailure msg), [url])
          ∧ containsStr msg (toString (O.httpGet url).status_code)
          ∧ containsStr msg (O.httpGet url).text)) := by
  refine ⟨fun hoff => ?_, fun hon hnoauth => ?_, fun hon hauth => ?_⟩
  · simp [auto_confirm_sns_subscription, hoff]
  · refine ⟨autoConfirmUnauthMsg (.str topic) (.str tok), ?_, ?_, ?_⟩
    · simp [auto_confirm_sns_subscription, hon, hnoauth, pyGet, hTopic, hTok]
    · exact (containsStr_five autoConfirmUnauthPre topic autoConfirmUnauthMid tok
        autoConfirmUnauthPost).1
    · exact (containsStr_five autoConfirmUnauthPre topic autoConfirmUnauthMid tok
        autoConfirmUnauthPost).2
  · cases hresp : (O.httpGet url).ok with
    | true =>
      have hmain : auto_confirm_sns_subscription cfg O (.obj fs) = (.ok (), [url]) := by
        simp [auto_confirm_sns_subscription, hon, hauth, pyIndex, hUrl, hresp]
      refine ⟨by rw [hmain], fun _ => hmain, fun hc => ?_⟩
      exact absurd hc (by simp)
    | false =>
      have hmain : auto_confirm_sns_subscription cfg O (.obj fs)
          = (.error (.validationFailure (autoConfirmFailMsg
              (O.httpGet url).status_code (O.httpGet url).text (.str topic))), [url]) := by
        simp [auto_confirm_sns_subscription, hon, hauth, pyIndex, hUrl, hresp, pyGet, hTopic]
      refine ⟨by rw [hmain], fun hc => ?_, fun _ => ?_⟩
      · exact absurd hc (by simp)
      · refine ⟨autoConfirmFailMsg (O.httpGet url).status_code (O.httpGet url).text
          (.str topic), hmain, ?_, ?_⟩
        · exact (containsStr_seven autoConfirmFailPre (toString (O.httpGet url).status_code)
            autoConfirmFailMid1 topic autoConfirmFailMid2 (O.httpGet url).text
            autoConfirmFailPost).1
        · exact (containsStr_seven autoConfirmFailPre (toString (O.httpGet url).status_code)
            autoConfirmFailMid1 topic autoConfirmFailMid2 (O.httpGet url).text
            autoConfirmFailPost).2

/-- Witness for C1: a concrete unauthenticated SubscriptionConfirmation
with auto-confirm enabled fails with no outbound call. -/
theorem handshake_auth_witness :
    ∃ msg, auto_confirm_sns_subscription
        { auto_confirm_enabled := true, basic_auth := false } nullOracle
        (.obj [("TopicArn", .str "arn:topic"), ("Token", .str "tok123"),
               ("SubscribeURL", .str "https://example.com/confirm")])
        = (.error (.validationFailure msg), [])
      ∧ containsStr msg "arn:topic" ∧ containsStr msg "tok123" :=
  (handshake_auth { auto_confirm_enabled := true, basic_auth := false } nullOracle
      [("TopicArn", .str "arn:topic"), ("Token", .str "tok123"),
       ("SubscribeURL", .str "https://example.com/confirm")]
      "arn:topic" "tok123" (.str "https://example.com/confirm") rfl rfl rfl).2.1 rfl rfl

/-! ## C7: metadata-header resilience -/

/-- Stated from the spec\x27s words, for comparison with the header
scan: the metadata value is the value of the last `x-metadata` header
(case-insensitive name) whose value JSON-decodes successfully, starting
from the prior/default value; headers whose value is missing or fails
to decode leave it unchanged. -/
def specMetadata (O : PyOracle) : List Json → Json → Json
  | [], md => md
  | h :: rest, md =>
    specMetadata O rest
      (match pyIndex h "name" with
       | .ok (.str nm) =>
         if pyLower nm = "x-metadata" then
           match pyIndex h "value" with
           | .ok v => (pyJsonLoads O v).getD md
           | .error _ => md
         else md
       | _ => md)

/-- Whatever the header scan returns for `metadata` is exactly the
spec\x27s last-successful-decode value. -/
theorem scanHeaders_metadata (O : PyOracle) :
    ∀ (hdrs tags : List Json) (md : Json) (t : List Json) (md' : Json),
      scanHeaders O hdrs tags md = .ok (t, md') → md' = specMetadata O hdrs md := by
  intro hdrs
  induction hdrs with
  | nil =>
    intro tags md t md' h
    simp [scanHeaders] at h
    simp [specMetadata, h]
  | cons header rest ih =>
    intro tags md t md' h
    rw [scanHeaders] at h
    obtain ⟨nameVal, hn, h⟩ := exceptBind_eq_ok h
    cases nameVal with
    | str nm =>
      simp only at h
      by_cases htag : pyLower nm = "x-tag"
      · have hmeta : ¬pyLower nm = "x-metadata" := by rw [htag]; decide
        rw [if_pos htag] at h
        obtain ⟨v, hv, h⟩ := exceptBind_eq_ok h
        have := ih _ _ _ _ h
        simp [specMetadata, hn, hmeta, this]
      · rw [if_neg htag] at h
        by_cases hmeta : pyLower nm = "x-metadata"
        · rw [if_pos hmeta] at h
          cases hv : pyIndex header "value" with
          | error e =>
            simp only [hv] at h
            have := ih _ _ _ _ h
            simp [specMetadata, hn, hmeta, hv, this]
          | ok v =>
            simp only [hv] at h
            cases hl : pyJsonLoads O v with
            | none =>
              simp only [hl] at h
              have := ih _ _ _ _ h
              simp [specMetadata, hn, hmeta, hv, hl, this]
            | some m =>
              simp only [hl] at h
              have := ih _ _ _ _ h
              simp [specMetadata, hn, hmeta, hv, hl, this]
        · rw [if_neg hmeta] at h
          have := ih _ _ _ _ h
          simp [specMetadata, hn, hmeta, this]
    | null => simp at h
    | bool b => simp at h
    | num n => simp at h
    | arr xs => simp at h
    | obj fs => simp at h

/-- Well-formed headers (each an object with a string `name`, and
`x-tag` headers carrying a `value`): the scan never aborts — in
particular an `x-metadata` value that fails to JSON-decode is
swallowed. -/
theorem scanHeaders_ok (O : PyOracle) :
    ∀ (hdrs tags : List Json) (md : Json),
      (∀ h ∈ hdrs, ∃ hfs nm, h = .obj hfs ∧ hfs.lookup "name" = some (.str nm) ∧
        (pyLower nm = "x-tag" → ∃ v, hfs.lookup "value" = some v)) →
      ∃ t md', scanHeaders O hdrs tags md = .ok (t, md') := by
  intro hdrs
  induction hdrs with
  | nil => intro tags md _; exact ⟨tags, md, rfl⟩
  | cons header rest ih =>
    intro tags md hwf
    obtain ⟨hfs, nm, hobj, hname, htagv⟩ := hwf header (by simp)
    have hwf' : ∀ h ∈ rest, ∃ hfs nm, h = .obj hfs ∧ hfs.lookup "name" = some (.str nm) ∧
        (pyLower nm = "x-tag" → ∃ v, hfs.lookup "value" = some v) :=
      fun h hmem => hwf h (by simp [hmem])
    subst hobj
    rw [scanHeaders]
    have hn : pyIndex (.obj hfs) "name" = .ok (.str nm) := by simp [pyIndex, hname]
    rw [hn, exceptBind_ok]
    simp only
    by_cases htag : pyLower nm = "x-tag"
    · obtain ⟨v, hv⟩ := htagv htag
      have hvi : pyIndex (.obj hfs) "value" = .ok v := by simp [pyIndex, hv]
      rw [if_pos htag, hvi, exceptBind_ok]
      exact ih _ _ hwf'
    · rw [if_neg htag]
      by_cases hmeta : pyLower nm = "x-metadata"
      · rw [if_pos hmeta]
        cases hvi : pyIndex (.obj hfs) "value" with
        | error e => simp only [hvi]; exact ih _ _ hwf'
        | ok v =>
          simp only [hvi]
          cases hl : pyJsonLoads O v with
          | none => simp only [hl]; exact ih _ _ hwf'
          | some m => simp only [hl]; exact ih _ _ hwf'
      · rw [if_neg hmeta]
        exact ih _ _ hwf'

/-- The metadata carried by the common event properties is exactly the
scan\x27s result on the mail object\x27s header list. -/
theorem espCommon_metadata (O : PyOracle) (sesEvent snsMessage : Json)
    (c : CommonProps) (pd : List RecipientProps)
    (mailObj hv : Json) (hdrs : List Json)
    (hm : pyGet sesEvent "mail" (.obj []) = .ok mailObj)
    (hh : pyGet mailObj "headers" (.arr []) = .ok hv)
    (hi : pyIter hv = .ok hdrs)
    (hc : espCommon O sesEvent snsMessage = .ok (c, pd)) :
    c.metadata = specMetadata O hdrs (.obj []) := by
  rw [espCommon] at hc
  obtain ⟨event_id, h1, hc⟩ := exceptBind_eq_ok hc
  obtain ⟨ts, h2, hc⟩ := exceptBind_eq_ok hc
  obtain ⟨mailObj2, hm2, hc⟩ := exceptBind_eq_ok hc
  rw [hm2] at hm
  obtain rfl : mailObj2 = mailObj := Except.ok.inj hm
  obtain ⟨message_id, h4, hc⟩ := exceptBind_eq_ok hc
  obtain ⟨dest, h5, hc⟩ := exceptBind_eq_ok hc
  obtain ⟨hv2, hh2, hc⟩ := exceptBind_eq_ok hc
  rw [hh2] at hh
  obtain rfl : hv2 = hv := Except.ok.inj hh
  obtain ⟨hdrs2, hi2, hc⟩ := exceptBind_eq_ok hc
  rw [hi2] at hi
  obtain rfl : hdrs2 = hdrs := Except.ok.inj hi
  obtain ⟨tm, h8, hc⟩ := exceptBind_eq_ok hc
  obtain ⟨tags, md⟩ := tm
  obtain ⟨recips, h9, hc⟩ := exceptBind_eq_ok hc
  simp only [pure, Except.pure, Except.ok.injEq, Prod.mk.injEq] at hc
  obtain ⟨hcc, _⟩ := hc
  rw [← hcc]
  exact scanHeaders_metadata O _ [] (.obj []) tags md h8

/-- C7: for every Notification, the `x-metadata` mail headers
(case-insensitive name) determine `metadata` as the last successfully
decoded value; a header whose value is invalid JSON is swallowed,
leaving metadata at its prior/default value — in particular, when no
`x-metadata` value decodes, `metadata = \x7b\x7d` — and the scan never
aborts normalization over well-formed headers. -/
theorem metadata_resilience (O : PyOracle) (sesEvent snsMessage : Json)
    (mailObj hv : Json) (hdrs : List Json)
    (hm : pyGet sesEvent "mail" (.obj []) = .ok mailObj)
    (hh : pyGet mailObj "headers" (.arr []) = .ok hv)
    (hi : pyIter hv = .ok hdrs)
    (hwf : ∀ h ∈ hdrs, ∃ hfs nm, h = .obj hfs ∧ hfs.lookup "name" = some (.str nm) ∧
      (pyLower nm = "x-tag" → ∃ v, hfs.lookup "value" = some v)) :
    (∃ t md, scanHeaders O hdrs [] (.obj []) = .ok (t, md)
      ∧ md = specMetadata O hdrs (.obj [])) ∧
    ((∀ h ∈ hdrs, ∀ hfs nm, h = .obj hfs → hfs.lookup "name" = some (.str nm) →
        pyLower nm = "x-metadata" →
        ∀ v, hfs.lookup "value" = some v → pyJsonLoads O v = none) →
      specMetadata O hdrs (.obj []) = .obj []) ∧
    (∀ c pd, espCommon O sesEvent snsMessage = .ok (c, pd) →
      c.metadata = specMetadata O hdrs (.obj [])) := by
  refine ⟨?_, ?_, ?_⟩
  · obtain ⟨t, md, hscan⟩ := scanHeaders_ok O hdrs [] (.obj []) hwf
    exact ⟨t, md, hscan, scanHeaders_metadata O hdrs [] (.obj []) t md hscan⟩
  · intro hfail
    have hgen : ∀ (l : List Json), (∀ h ∈ l, h ∈ hdrs) → ∀ md : Json,
        specMetadata O l md = md := by
      intro l
      induction l with
      | nil => intro _ md; rfl
      | cons header rest ih =>
        intro hsub md
        rw [specMetadata]
        have hupd : (match pyIndex header "name" with
            | .ok (.str nm) =>
              if pyLower nm = "x-metadata" then
                match pyIndex header "value" with
                | .ok v => (pyJsonLoads O v).getD md
                | .error _ => md
              else md
            | _ => md) = md := by
          obtain ⟨hfs, nm, hobj, hname, _⟩ := hwf header (hsub header (by simp))
          subst hobj
          have hn : pyIndex (.obj hfs) "name" = .ok (.str nm) := by simp [pyIndex, hname]
          simp only [hn]
          by_cases hmeta : pyLower nm = "x-metadata"
          · rw [if_pos hmeta]
            cases hvi : pyIndex (.obj hfs) "value" with
            | error e => rfl
            | ok v =>
              have hvl : hfs.lookup "value" = some v := by
                by_cases hlook : (hfs.lookup "value").isSome
                · obtain ⟨w, hw⟩ := Option.isSome_iff_exists.mp hlook
                  rw [show w = v from by simpa [pyIndex, hw] using hvi] at hw
                  exact hw
                · rw [Option.not_isSome_iff_eq_none] at hlook
                  simp [pyIndex, hlook] at hvi
              simp [hfail (.obj hfs) (hsub _ (by simp)) hfs nm rfl hname hmeta v hvl]
          · rw [if_neg hmeta]
        rw [hupd]
        exact ih (fun h hm2 => hsub h (by simp [hm2])) md
    exact hgen hdrs (fun h hm2 => hm2) (.obj [])
  · intro c pd hc
    exact espCommon_metadata O sesEvent snsMessage c pd mailObj hv hdrs hm hh hi hc

/-- Witness for C7: one `x-metadata` header with undecodable value
yields `metadata = \x7b\x7d` and the scan succeeds. -/
theorem metadata_resilience_witness :
    (∃ t md, scanHeaders nullOracle
        [.obj [("name", .str "X-Metadata"), ("value", .str "not json")]] [] (.obj [])
        = .ok (t, md)
      ∧ md = specMetadata nullOracle
          [.obj [("name", .str "X-Metadata"), ("value", .str "not json")]] (.obj [])) ∧
    ((∀ h ∈ [Json.obj [("name", .str "X-Metadata"), ("value", .str "not json")]],
        ∀ hfs nm, h = .obj hfs → hfs.lookup "name" = some (.str nm) →
        pyLower nm = "x-metadata" →
        ∀ v, hfs.lookup "value" = some v → pyJsonLoads nullOracle v = none) →
      specMetadata nullOracle
        [.obj [("name", .str "X-Metadata"), ("value", .str "not json")]] (.obj [])
        = .obj []) ∧
    (∀ c pd, espCommon nullOracle
        (.obj [("mail", .obj [("headers",
          .arr [.obj [("name", .str "X-Metadata"), ("value", .str "not json")]])])])
        (.obj []) = .ok (c, pd) →
      c.metadata = specMetadata nullOracle
        [.obj [("name", .str "X-Metadata"), ("value", .str "not json")]] (.obj [])) :=
  metadata_resilience nullOracle
    (.obj [("mail", .obj [("headers",
      .arr [.obj [("name", .str "X-Metadata"), ("value", .str "not json")]])])])
    (.obj [])
    (.obj [("headers", .arr [.obj [("name", .str "X-Metadata"), ("value", .str "not json")]])])
    (.arr [.obj [("name", .str "X-Metadata"), ("value", .str "not json")]])
    [.obj [("name", .str "X-Metadata"), ("value", .str "not json")]]
    rfl rfl rfl
    (by
      intro h hm2
      simp at hm2
      exact ⟨[("name", .str "X-Metadata"), ("value", .str "not json")], "X-Metadata",
        hm2, rfl, fun _ => ⟨.str "not json", rfl⟩⟩)

/-! ## Inversion helpers for the event normalizer -/

theorem pyIndex_ok_obj {r : Json} {k : String} {a : Json}
    (h : pyIndex r k = .ok a) : ∃ fs, r = .obj fs ∧ fs.lookup k = some a := by
  cases r with
  | obj fs =>
    cases hl : fs.lookup k with
    | none => simp [pyIndex, hl] at h
    | some v =>
      have hva : v = a := by simpa [pyIndex, hl] using h
      exact ⟨fs, rfl, by rw [hl, hva]⟩
  | null => simp [pyIndex] at h
  | bool b => simp [pyIndex] at h
  | num n => simp [pyIndex] at h
  | str s => simp [pyIndex] at h
  | arr xs => simp [pyIndex] at h

theorem mapExcept_ok_forall2 {α : Type} (f : Json → Except PyError α) :
    ∀ rs : List Json, (∀ r ∈ rs, ∃ a, f r = .ok a) →
      ∃ ys, mapExcept f rs = .ok ys ∧ List.Forall₂ (fun y r => f r = .ok y) ys rs := by
  intro rs
  induction rs with
  | nil => intro _; exact ⟨[], rfl, List.Forall₂.nil⟩
  | cons r rest ih =>
    intro h
    obtain ⟨a, ha⟩ := h r (by simp)
    obtain ⟨ys, hys, hfa⟩ := ih (fun x hx => h x (by simp [hx]))
    refine ⟨a :: ys, ?_, List.Forall₂.cons ha hfa⟩
    rw [mapExcept, ha, exceptBind_ok, hys, exceptBind_ok]
    rfl

theorem mapExcept_mem {α : Type} (f : Json → Except PyError α) :
    ∀ (rs : List Json) (ys : List α), mapExcept f rs = .ok ys →
      ∀ y ∈ ys, ∃ r, r ∈ rs ∧ f r = .ok y := by
  intro rs
  induction rs with
  | nil =>
    intro ys h y hy
    simp [mapExcept] at h
    subst h
    simp at hy
  | cons r rest ih =>
    intro ys h y hy
    rw [mapExcept] at h
    obtain ⟨a, ha, h⟩ := exceptBind_eq_ok h
    obtain ⟨ys2, hys2, h⟩ := exceptBind_eq_ok h
    simp only [pure, Except.pure, Except.ok.injEq] at h
    subst h
    rcases List.mem_cons.mp hy with rfl | hy2
    · exact ⟨r, by simp, ha⟩
    · obtain ⟨r2, hr2, hf⟩ := ih ys2 hys2 y hy2
      exact ⟨r2, by simp [hr2], hf⟩

/-- An extracted subtype implies the application event is an object. -/
theorem espSubtype_obj {ses : Json} {s : String} (h : espSubtype ses = .ok s) :
    ∃ fs, ses = .obj fs := by
  cases ses with
  | obj fs => exact ⟨fs, rfl⟩
  | null => simp [espSubtype, getfirst, pyIndex, exceptBind_error] at h
  | bool b => simp [espSubtype, getfirst, pyIndex, exceptBind_error] at h
  | num n => simp [espSubtype, getfirst, pyIndex, exceptBind_error] at h
  | str s2 => simp [espSubtype, getfirst, pyIndex, exceptBind_error] at h
  | arr xs => simp [espSubtype, getfirst, pyIndex, exceptBind_error] at h

/-- Full inversion of a successful `espCommon`. -/
theorem espCommon_ok_inv {O : PyOracle} {ses sns : Json} {c : CommonProps}
    {pd : List RecipientProps} (h : espCommon O ses sns = .ok (c, pd)) :
    ∃ event_id ts mailObj message_id dest hv hdrs tags md recips,
      pyGet sns "MessageId" .null = .ok event_id ∧
      espTimestamp O sns = .ok ts ∧
      pyGet ses "mail" (.obj []) = .ok mailObj ∧
      pyGet mailObj "messageId" .null = .ok message_id ∧
      pyGet mailObj "destination" (.arr []) = .ok dest ∧
      pyGet mailObj "headers" (.arr []) = .ok hv ∧
      pyIter hv = .ok hdrs ∧
      scanHeaders O hdrs [] (.obj []) = .ok (tags, md) ∧
      pyIter dest = .ok recips ∧
      c = { event_id := event_id, message_id := message_id, metadata := md,
            tags := tags, timestamp := ts, esp_event := ses } ∧
      pd = recips.map (fun a => { recipient := a }) := by
  rw [espCommon] at h
  obtain ⟨event_id, h1, h⟩ := exceptBind_eq_ok h
  obtain ⟨ts, h2, h⟩ := exceptBind_eq_ok h
  obtain ⟨mailObj, h3, h⟩ := exceptBind_eq_ok h
  obtain ⟨message_id, h4, h⟩ := exceptBind_eq_ok h
  obtain ⟨dest, h5, h⟩ := exceptBind_eq_ok h
  obtain ⟨hv, h6, h⟩ := exceptBind_eq_ok h
  obtain ⟨hdrs, h7, h⟩ := exceptBind_eq_ok h
  obtain ⟨tm, h8, h⟩ := exceptBind_eq_ok h
  obtain ⟨tags, md⟩ := tm
  obtain ⟨recips, h9, h⟩ := exceptBind_eq_ok h
  simp only [pure, Except.pure, Except.ok.injEq, Prod.mk.injEq] at h
  obtain ⟨hcc, hpd⟩ := h
  exact ⟨event_id, ts, mailObj, message_id, dest, hv, hdrs, tags, md, recips,
    h1, h2, h3, h4, h5, h6, h7, h8, h9, hcc.symm, hpd.symm⟩

/-- Structural inversion of a successful normalization: the events are
the per-recipient entries merged with one shared common-property
record. -/
theorem esp_ok_inv {O : PyOracle} {ses sns : Json}
    {evs : List AnymailTrackingEvent}
    (h : esp_to_anymail_events O ses sns = .ok evs) :
    ∃ common perDefault s c prs,
      espCommon O ses sns = .ok (common, perDefault) ∧
      espSubtype ses = .ok s ∧
      espDispatch ses s common perDefault = .ok (c, prs) ∧
      evs = prs.map (combine c) := by
  rw [esp_to_anymail_events] at h
  obtain ⟨cp, h1, h⟩ := exceptBind_eq_ok h
  obtain ⟨common, perDefault⟩ := cp
  obtain ⟨s, h2, h⟩ := exceptBind_eq_ok h
  obtain ⟨cprs, h3, h⟩ := exceptBind_eq_ok h
  obtain ⟨c, prs⟩ := cprs
  simp only [pure, Except.pure, Except.ok.injEq] at h
  exact ⟨common, perDefault, s, c, prs, h1, h2, h3, h.symm⟩

/-! ## C3: Bounce fan-out -/

/-- C3: a Notification whose application event has subtype Bounce with
K entries in the bounce detail\x27s `bouncedRecipients` list normalizes
to exactly K events, each Bounced with `reject_reason = Bounced`,
description `"\x7bbounceType\x7d: \x7bbounceSubType\x7d"`, and each
taking its recipient from that entry\x27s `emailAddress` and its
`mta_response` from that entry\x27s `diagnosticCode`. -/
theorem bounce_fanout (O : PyOracle) (ses sns : Json) (common : CommonProps)
    (perDefault : List RecipientProps) (bfs : List (String × Json))
    (bt bst : Json) (rs : List Json)
    (hc : espCommon O ses sns = .ok (common, perDefault))
    (hs : espSubtype ses = .ok "Bounce")
    (hobj : pyGet ses "bounce" (.obj []) = .ok (.obj bfs))
    (hbt : bfs.lookup "bounceType" = some bt)
    (hbst : bfs.lookup "bounceSubType" = some bst)
    (hrs : bfs.lookup "bouncedRecipients" = some (.arr rs))
    (hwf : ∀ r ∈ rs, ∃ a, pyIndex r "emailAddress" = .ok a) :
    ∃ evs, esp_to_anymail_events O ses sns = .ok evs ∧
      evs.length = rs.length ∧
      List.Forall₂ (fun (ev : AnymailTrackingEvent) r =>
        ev.event_type = .bounced ∧
        ev.reject_reason = some .bounced ∧
        ev.description = .str (pyStr bt ++ ": " ++ pyStr bst) ∧
        pyIndex r "emailAddress" = .ok ev.recipient ∧
        pyGet r "diagnosticCode" .null = .ok ev.mta_response) evs rs := by
  have hlow : pyLower "Bounce" = "bounce" := by decide
  have hmap : ∀ r ∈ rs, ∃ y, (fun r => do
      let addr ← pyIndex r "emailAddress"
      let diag ← pyGet r "diagnosticCode" .null
      pure ({ recipient := addr, mta_response := some diag } :
        RecipientProps)) r = .ok y := by
    intro r hr
    obtain ⟨a, ha⟩ := hwf r hr
    obtain ⟨fs2, rfl, hlook⟩ := pyIndex_ok_obj ha
    exact ⟨{ recipient := a,
             mta_response := some (((fs2.lookup "diagnosticCode").getD .null)) },
      by simp [ha, pyGet, exceptBind_ok, pure, Except.pure]⟩
  obtain ⟨ys, hys, hfa⟩ := mapExcept_ok_forall2 _ rs hmap
  have hfmt1 : pyFormatKey (.obj bfs) "bounceType" = .ok (pyStr bt) := by
    simp [pyFormatKey, hbt]
  have hfmt2 : pyFormatKey (.obj bfs) "bounceSubType" = .ok (pyStr bst) := by
    simp [pyFormatKey, hbst]
  have hbr : pyIndex (.obj bfs) "bouncedRecipients" = .ok (.arr rs) := by
    simp [pyIndex, hrs]
  have hdisp : espDispatch ses "Bounce" common perDefault = .ok
      ({ common with
          event_type := .bounced
          description := .str (pyStr bt ++ ": " ++ pyStr bst)
          reject_reason := some .bounced }, ys) := by
    rw [espDispatch, hlow, hobj, exceptBind_ok, if_pos rfl, hfmt1, exceptBind_ok,
      hfmt2, exceptBind_ok, hbr, exceptBind_ok]
    rw [show pyIter (.arr rs) = .ok rs from rfl, exceptBind_ok, hys, exceptBind_ok]
    rfl
  refine ⟨ys.map (combine { common with
      event_type := .bounced
      description := .str (pyStr bt ++ ": " ++ pyStr bst)
      reject_reason := some .bounced }), ?_, ?_, ?_⟩
  · simp only [esp_to_anymail_events, hc, exceptBind_ok, hs, hdisp]
    rfl
  · rw [List.length_map]
    exact hfa.length_eq
  · rw [List.forall₂_map_left_iff]
    refine hfa.imp ?_
    intro y r hfr
    obtain ⟨addr, ha, hfr⟩ := exceptBind_eq_ok hfr
    obtain ⟨diag, hd, hp⟩ := exceptBind_eq_ok hfr
    have hy : y = { recipient := addr, mta_response := some diag } := by
      simpa [pure, Except.pure] using hp.symm
    subst hy
    exact ⟨rfl, rfl, rfl, ha, hd⟩

/-- Witness for C3: a concrete Bounce with two bounced recipients. -/
theorem bounce_fanout_witness :
    ∃ evs, esp_to_anymail_events nullOracle
        (.obj [("eventType", .str "Bounce"),
               ("mail", .obj [("messageId", .str "m0"),
                              ("destination", .arr [.str "a@x.com", .str "b@x.com"]),
                              ("headers", .arr [])]),
               ("bounce", .obj [("bounceType", .str "Permanent"),
                                ("bounceSubType", .str "General"),
                                ("bouncedRecipients", .arr
                                  [.obj [("emailAddress", .str "a@x.com"),
                                         ("diagnosticCode", .str "550 bad")],
                                   .obj [("emailAddress", .str "b@x.com")]])])])
        (.obj [("MessageId", .str "sns1")]) = .ok evs ∧
      evs.length = 2 ∧
      List.Forall₂ (fun (ev : AnymailTrackingEvent) r =>
        ev.event_type = .bounced ∧
        ev.reject_reason = some .bounced ∧
        ev.description = .str (pyStr (.str "Permanent") ++ ": " ++ pyStr (.str "General")) ∧
        pyIndex r "emailAddress" = .ok ev.recipient ∧
        pyGet r "diagnosticCode" .null = .ok ev.mta_response) evs
        [.obj [("emailAddress", .str "a@x.com"), ("diagnosticCode", .str "550 bad")],
         .obj [("emailAddress", .str "b@x.com")]] := by
  have h := bounce_fanout nullOracle
    (.obj [("eventType", .str "Bounce"),
           ("mail", .obj [("messageId", .str "m0"),
                          ("destination", .arr [.str "a@x.com", .str "b@x.com"]),
                          ("headers", .arr [])]),
           ("bounce", .obj [("bounceType", .str "Permanent"),
                            ("bounceSubType", .str "General"),
                            ("bouncedRecipients", .arr
                              [.obj [("emailAddress", .str "a@x.com"),
                                     ("diagnosticCode", .str "550 bad")],
                               .obj [("emailAddress", .str "b@x.com")]])])])
    (.obj [("MessageId", .str "sns1")])
    { event_id := .str "sns1", message_id := .str "m0", metadata := .obj [],
      tags := [], timestamp := none,
      esp_event := .obj [("eventType", .str "Bounce"),
           ("mail", .obj [("messageId", .str "m0"),
                          ("destination", .arr [.str "a@x.com", .str "b@x.com"]),
                          ("headers", .arr [])]),
           ("bounce", .obj [("bounceType", .str "Permanent"),
                            ("bounceSubType", .str "General"),
                            ("bouncedRecipients", .arr
                              [.obj [("emailAddress", .str "a@x.com"),
                                     ("diagnosticCode", .str "550 bad")],
                               .obj [("emailAddress", .str "b@x.com")]])])] }
    [{ recipient := .str "a@x.com" }, { recipient := .str "b@x.com" }]
    [("bounceType", .str "Permanent"), ("bounceSubType", .str "General"),
     ("bouncedRecipients", .arr
       [.obj [("emailAddress", .str "a@x.com"), ("diagnosticCode", .str "550 bad")],
        .obj [("emailAddress", .str "b@x.com")]])]
    (.str "Permanent") (.str "General")
    [.obj [("emailAddress", .str "a@x.com"), ("diagnosticCode", .str "550 bad")],
     .obj [("emailAddress", .str "b@x.com")]]
    rfl rfl rfl rfl rfl rfl
    (by
      intro r hr
      rcases List.mem_cons.mp hr with rfl | hr2
      · exact ⟨.str "a@x.com", rfl⟩
      · rcases List.mem_cons.mp hr2 with rfl | hr3
        · exact ⟨.str "b@x.com", rfl⟩
        · simp at hr3)
  obtain ⟨evs, h1, h2, h3⟩ := h
  exact ⟨evs, h1, h2, h3⟩

/-! ## C4: unknown-subtype fallback -/

/-- C4: a Notification whose application event subtype — extracted by
first-match lookup across `eventType` then `notificationType`,
defaulting to the sentinel `"<<type missing>>"` — is none of the eight
recognized subtypes produces one event per address of the full
recipient list, each with `event_type = Unknown` and a description
containing the offending subtype string verbatim. -/
theorem unknown_subtype_fanout (O : PyOracle) (ses sns : Json)
    (common : CommonProps) (perDefault : List RecipientProps) (s : String)
    (hc : espCommon O ses sns = .ok (common, perDefault))
    (hs : espSubtype ses = .ok s)
    (hunk : s ∉ (["Bounce", "Complaint", "Delivery", "Send", "Reject",
      "Open", "Click", "Rendering Failure"] : List String)) :
    ∃ evs, esp_to_anymail_events O ses sns = .ok evs ∧
      List.Forall₂ (fun (ev : AnymailTrackingEvent) (pr : RecipientProps) =>
        ev.event_type = .unknown ∧ ev.recipient = pr.recipient ∧
        ev.description = .str (unknownEventMsg s)) evs perDefault ∧
      containsStr (unknownEventMsg s) s ∧
      (∀ mailObj dest addrs, pyGet ses "mail" (.obj []) = .ok mailObj →
        pyGet mailObj "destination" (.arr []) = .ok dest →
        pyIter dest = .ok addrs →
        List.Forall₂ (fun (pr : RecipientProps) a => pr.recipient = a)
          perDefault addrs) := by
  obtain ⟨sfs, rfl⟩ := espSubtype_obj hs
  have h1 : ¬s = "Bounce" := fun h => hunk (by simp [h])
  have h2 : ¬s = "Complaint" := fun h => hunk (by simp [h])
  have h3 : ¬s = "Delivery" := fun h => hunk (by simp [h])
  have h4 : ¬s = "Send" := fun h => hunk (by simp [h])
  have h5 : ¬s = "Reject" := fun h => hunk (by simp [h])
  have h6 : ¬s = "Open" := fun h => hunk (by simp [h])
  have h7 : ¬s = "Click" := fun h => hunk (by simp [h])
  have h8 : ¬s = "Rendering Failure" := fun h => hunk (by simp [h])
  have hdisp : espDispatch (.obj sfs) s common perDefault = .ok
      ({ common with
          event_type := .unknown
          description := .str (unknownEventMsg s) }, perDefault) := by
    rw [espDispatch]
    rw [show pyGet (.obj sfs) (pyLower s) (.obj [])
        = .ok ((sfs.lookup (pyLower s)).getD (.obj [])) from rfl, exceptBind_ok]
    rw [if_neg h1, if_neg h2, if_neg h3, if_neg h4, if_neg h5, if_neg h6,
      if_neg h7, if_neg h8]
    rfl
  refine ⟨perDefault.map (combine { common with
      event_type := .unknown
      description := .str (unknownEventMsg s) }), ?_, ?_, ?_, ?_⟩
  · simp only [esp_to_anymail_events, hc, exceptBind_ok, hs, hdisp]
    rfl
  · rw [List.forall₂_map_left_iff]
    exact List.forall₂_same.mpr fun pr _ => ⟨rfl, rfl, rfl⟩
  · exact containsStr_append "Unknown SES eventType \x27" s "\x27"
  · intro mailObj dest addrs hm hd hi
    obtain ⟨event_id, ts, mailObj2, message_id, dest2, hv, hdrs, tags, md, recips,
      _, _, hm2, _, hd2, _, _, _, hi2, _, hpd⟩ := espCommon_ok_inv hc
    obtain rfl : mailObj2 = mailObj := Except.ok.inj (hm2.symm.trans hm)
    obtain rfl : dest2 = dest := Except.ok.inj (hd2.symm.trans hd)
    obtain rfl : recips = addrs := Except.ok.inj (hi2.symm.trans hi)
    rw [hpd, List.forall₂_map_left_iff]
    exact List.forall₂_same.mpr fun a _ => rfl

/-- Witness for C4: a concrete notification with unrecognized subtype
`"NewThing"` and two recipients. -/
theorem unknown_subtype_fanout_witness :
    ∃ evs, esp_to_anymail_events nullOracle
        (.obj [("eventType", .str "NewThing"),
               ("mail", .obj [("messageId", .str "m0"),
                              ("destination", .arr [.str "a@x.com", .str "b@x.com"]),
                              ("headers", .arr [])])])
        (.obj [("MessageId", .str "sns2")]) = .ok evs ∧
      List.Forall₂ (fun (ev : AnymailTrackingEvent) (pr : RecipientProps) =>
        ev.event_type = .unknown ∧ ev.recipient = pr.recipient ∧
        ev.description = .str (unknownEventMsg "NewThing")) evs
        [{ recipient := .str "a@x.com" }, { recipient := .str "b@x.com" }] ∧
      containsStr (unknownEventMsg "NewThing") "NewThing" ∧
      (∀ mailObj dest addrs,
        pyGet (.obj [("eventType", .str "NewThing"),
               ("mail", .obj [("messageId", .str "m0"),
                              ("destination", .arr [.str "a@x.com", .str "b@x.com"]),
                              ("headers", .arr [])])]) "mail" (.obj [])
          = .ok mailObj →
        pyGet mailObj "destination" (.arr []) = .ok dest →
        pyIter dest = .ok addrs →
        List.Forall₂ (fun (pr : RecipientProps) a => pr.recipient = a)
          [{ recipient := .str "a@x.com" }, { recipient := .str "b@x.com" }] addrs) :=
  unknown_subtype_fanout nullOracle
    (.obj [("eventType", .str "NewThing"),
           ("mail", .obj [("messageId", .str "m0"),
                          ("destination", .arr [.str "a@x.com", .str "b@x.com"]),
                          ("headers", .arr [])])])
    (.obj [("MessageId", .str "sns2")])
    { event_id := .str "sns2", message_id := .str "m0", metadata := .obj [],
      tags := [], timestamp := none,
      esp_event := .obj [("eventType", .str "NewThing"),
           ("mail", .obj [("messageId", .str "m0"),
                          ("destination", .arr [.str "a@x.com", .str "b@x.com"]),
                          ("headers", .arr [])])] }
    [{ recipient := .str "a@x.com" }, { recipient := .str "b@x.com" }]
    "NewThing" rfl rfl (by decide)

/-! ## C8: fields shared by the fan-out events -/

/-- C8 (amended): all events produced for one Notification share every
field other than `recipient` and `mta_response` (in particular
`event_id`, `message_id`, `timestamp`, `tags`, `metadata` and the raw
`esp_event`); only the Bounce branch gives `mta_response` a
per-recipient value — for a Complaint, every event\x27s `mta_response`
is `None`, not a per-recipient diagnostic code. -/
theorem events_share_common (O : PyOracle) (ses sns : Json)
    (evs : List AnymailTrackingEvent)
    (h : esp_to_anymail_events O ses sns = .ok evs) :
    (∀ e1 ∈ evs, ∀ e2 ∈ evs,
      e1.event_type = e2.event_type ∧ e1.event_id = e2.event_id ∧
      e1.message_id = e2.message_id ∧ e1.reject_reason = e2.reject_reason ∧
      e1.description = e2.description ∧ e1.user_agent = e2.user_agent ∧
      e1.click_url = e2.click_url ∧ e1.tags = e2.tags ∧
      e1.metadata = e2.metadata ∧ e1.timestamp = e2.timestamp ∧
      e1.esp_event = e2.esp_event) ∧
    (espSubtype ses = .ok "Complaint" → ∀ e ∈ evs, e.mta_response = .null) := by
  obtain ⟨common, perDefault, s, c, prs, hc, hs, hd, rfl⟩ := esp_ok_inv h
  constructor
  · intro e1 he1 e2 he2
    obtain ⟨p1, _, rfl⟩ := List.mem_map.mp he1
    obtain ⟨p2, _, rfl⟩ := List.mem_map.mp he2
    exact ⟨rfl, rfl, rfl, rfl, rfl, rfl, rfl, rfl, rfl, rfl, rfl⟩
  · intro hcs e he
    obtain rfl : s = "Complaint" := Except.ok.inj (hs.symm.trans hcs)
    have hcm : common.mta_response = .null := by
      obtain ⟨event_id, ts, mailObj, message_id, dest, hv, hdrs, tags, md, recips,
        _, _, _, _, _, _, _, _, _, hcc, _⟩ := espCommon_ok_inv hc
      rw [hcc]
    rw [espDispatch] at hd
    obtain ⟨eo, heo, hd⟩ := exceptBind_eq_ok hd
    rw [if_neg (by decide : ¬("Complaint" = "Bounce")), if_pos rfl] at hd
    obtain ⟨fb, hfb, hd⟩ := exceptBind_eq_ok hd
    obtain ⟨ua, hua, hd⟩ := exceptBind_eq_ok hd
    obtain ⟨crVal, hcr, hd⟩ := exceptBind_eq_ok hd
    obtain ⟨crs, hcrs, hd⟩ := exceptBind_eq_ok hd
    obtain ⟨prs2, hprs, hd⟩ := exceptBind_eq_ok hd
    simp only [pure, Except.pure, Except.ok.injEq, Prod.mk.injEq] at hd
    obtain ⟨hcEq, hprsEq⟩ := hd
    obtain ⟨p, hp, rfl⟩ := List.mem_map.mp he
    rw [← hprsEq] at hp
    obtain ⟨r, hr, hf⟩ := mapExcept_mem _ crs prs2 hprs p hp
    obtain ⟨addr, ha, hf⟩ := exceptBind_eq_ok hf
    have hpp : p = { recipient := addr } := by
      simpa [pure, Except.pure] using hf.symm
    subst hpp
    rw [← hcEq]
    simp [combine, hcm]

/-- Counterexample for C8 as stated: a Complaint with two complained
recipients carrying distinct `diagnosticCode` values produces events
whose `mta_response` is `None` for every recipient — the code never
copies a Complaint recipient\x27s diagnostic code into `mta_response`,
so Complaint events do not carry a per-recipient `mta_response`. -/
theorem complaint_mta_cex :
    (esp_to_anymail_events nullOracle
        (.obj [("eventType", .str "Complaint"),
               ("mail", .obj [("messageId", .str "m"),
                              ("destination", .arr []), ("headers", .arr [])]),
               ("complaint", .obj [("complaintFeedbackType", .str "abuse"),
                 ("complainedRecipients", .arr
                   [.obj [("emailAddress", .str "a@x.com"),
                          ("diagnosticCode", .str "DC1")],
                    .obj [("emailAddress", .str "b@x.com"),
                          ("diagnosticCode", .str "DC2")]])])])
        (.obj [("MessageId", .str "id1")])).map
        (List.map AnymailTrackingEvent.mta_response)
      = .ok [.null, .null] ∧ Json.null ≠ Json.str "DC1" := by
  constructor
  · rfl
  · exact fun hx => nomatch hx

/-- The Complaint fixture for the C8 witness and counterexample. -/
def complaintSes : Json :=
  .obj [("eventType", .str "Complaint"),
        ("mail", .obj [("messageId", .str "m"),
                       ("destination", .arr []), ("headers", .arr [])]),
        ("complaint", .obj [("complaintFeedbackType", .str "abuse"),
          ("complainedRecipients", .arr
            [.obj [("emailAddress", .str "a@x.com"),
                   ("diagnosticCode", .str "DC1")],
             .obj [("emailAddress", .str "b@x.com"),
                   ("diagnosticCode", .str "DC2")]])])]

/-- The two events the fixture normalizes to. -/
def complaintEvents : List AnymailTrackingEvent :=
  [{ event_type := .complained, event_id := .str "id1", message_id := .str "m",
     recipient := .str "a@x.com", reject_reason := some .spam,
     description := .str "abuse", esp_event := complaintSes },
   { event_type := .complained, event_id := .str "id1", message_id := .str "m",
     recipient := .str "b@x.com", reject_reason := some .spam,
     description := .str "abuse", esp_event := complaintSes }]

/-- Witness for C8 (amended) at the concrete Complaint input above. -/
theorem events_share_common_witness :
    (∀ e1 ∈ complaintEvents, ∀ e2 ∈ complaintEvents,
      e1.event_type = e2.event_type ∧ e1.event_id = e2.event_id ∧
      e1.message_id = e2.message_id ∧ e1.reject_reason = e2.reject_reason ∧
      e1.description = e2.description ∧ e1.user_agent = e2.user_agent ∧
      e1.click_url = e2.click_url ∧ e1.tags = e2.tags ∧
      e1.metadata = e2.metadata ∧ e1.timestamp = e2.timestamp ∧
      e1.esp_event = e2.esp_event) ∧
    (espSubtype complaintSes = .ok "Complaint" →
      ∀ e ∈ complaintEvents, e.mta_response = .null) :=
  events_share_common nullOracle complaintSes (.obj [("MessageId", .str "id1")])
    complaintEvents rfl

end AmazonSES
